import Mathlib

/-!
# Shallow embedding of `serverless-import-apigateway` (src/lib/index.js)

This file embeds the resolution core of the plugin `ImportApiGatewayPlugin`
into Lean 4 and proves properties of the specification against it.

Modelling conventions:
* JavaScript strings are Lean `String`s; a possibly-`undefined` string is
  `Option String` (`none` = `undefined`).
* A JavaScript object used as a string-keyed dictionary is an association
  list `List (String × String)`; assignment `obj[k] = v` updates the value
  in place when the key exists and appends otherwise (`objInsert`), which
  reproduces JS insertion-order semantics for `Object.entries`/`Object.keys`.
* Property access `obj[k]` on such an object is total and yields
  `undefined` (`none`) for a missing key (`objGet`).
* `await this.provider.request(...)` is modelled by an oracle
  (`ProviderResponses`) supplying, for each of the three requests the code
  makes, either the response payload or a thrown transport error
  (`Except String _`, the `String` being the error message).
* A thrown JS exception is an error message threaded explicitly; the
  top-level `try`/`catch` of `importApiGateway` converts it into a
  `console.error` line (`chalk.red` colouring is elided as presentation).
-/

namespace ImportApiGatewayPlugin

/-- A JS string value that may be `undefined` (`none`). -/
abbrev JsStr := Option String

/-- A single-quote character, used when assembling log messages. -/
def sq : String := String.singleton (Char.ofNat 39)

/-- JS property read `obj[k]` on a string-keyed object: first matching key,
`undefined` (`none`) when absent. -/
def objGet : List (String × String) → String → Option String
  | [], _ => none
  | kv :: t, k => if kv.1 = k then some kv.2 else objGet t k

/-- JS property write `obj[k] = v`: overwrite in place when the key exists,
append otherwise (insertion order preserved). -/
def objInsert : List (String × String) → String → String → List (String × String)
  | [], k, v => [(k, v)]
  | kv :: t, k, v => if kv.1 = k then (k, v) :: t else kv :: objInsert t k v

/-- `Object.keys(obj)` in insertion order. -/
def objKeys (l : List (String × String)) : List String := l.map (fun kv => kv.1)

/-- JS falsiness of a possibly-`undefined` string (`!x`): `undefined` and the
empty string are falsy; every other string is truthy. -/
def jsFalsyOpt : JsStr → Bool
  | none => true
  | some s => decide (s = "")

/-- `String.prototype.startsWith`: `s.startsWith(pre)`. -/
def jsStartsWith (s pre : String) : Bool := pre.data.isPrefixOf s.data

/-! ## The `isArn` regular-expression test (source lines 9-19)

The source tests `string.match(/arn:aws:lambda:.+?:.+?:layer:.+?:[\d+]/g)`.
A match exists iff some substring has the shape
`"arn:aws:lambda:" ++ A ++ ":" ++ B ++ ":layer:" ++ C ++ ":" ++ d ++ _`
where `A`, `B`, `C` are non-empty sequences of non-line-terminator
characters (`.` in a JS regex matches everything except the four line
terminators) and `d` is a digit or a plus sign (the character class
`[\d+]`). Laziness of `.+?` is irrelevant for existence of a match. -/

/-- Does `c` match `.` in a (non-dotAll) JS regex? Everything except the
four line terminators. -/
def isDot (c : Char) : Bool :=
  !(c = Char.ofNat 10 || c = Char.ofNat 13 || c = Char.ofNat 0x2028 || c = Char.ofNat 0x2029)

/-- Does `c` match the character class `[\d+]` (a decimal digit or a plus)? -/
def digitOrPlus (c : Char) : Bool := c.isDigit || c = '+'

/-- Match a literal character sequence, then continue with `k`. -/
def litThen : List Char → (List Char → Bool) → List Char → Bool
  | [], k, l => k l
  | _ :: _, _, [] => false
  | c :: cs, k, d :: ds => c = d && litThen cs k ds

/-- Match `.+?` (one or more `.`-characters, any split), then continue
with `k`. -/
def segThen (k : List Char → Bool) : List Char → Bool
  | [] => false
  | c :: rest => isDot c && (k rest || segThen k rest)

/-- Match the whole ARN pattern at the head of the character list. -/
def arnCore : List Char → Bool :=
  litThen "arn:aws:lambda:".data
    (segThen (litThen [Char.ofNat 58]
      (segThen (litThen ":layer:".data
        (segThen (litThen [Char.ofNat 58]
          (fun l => match l with
            | [] => false
            | c :: _ => digitOrPlus c)))))))

/-- Search for a match of the ARN pattern anywhere in the list. -/
def isArnAux : List Char → Bool
  | [] => false
  | c :: rest => arnCore (c :: rest) || isArnAux rest

/-- `isArn` (source lines 9-19): does the string contain a match of
`arn:aws:lambda:.+?:.+?:layer:.+?:[\d+]`? -/
def isArn (s : String) : Bool := isArnAux s.data

/-! ## Data model (deployment model and provider responses) -/

/-- One entry of the `Lambda listLayers` response: the code reads
`layer.LayerName` and `layer.LatestMatchingVersion.LayerVersionArn`. -/
structure LayerVersion where
  LayerVersionArn : String
deriving Repr

structure LayerItem where
  LayerName : String
  LatestMatchingVersion : LayerVersion
deriving Repr

/-- One entry of the `APIGateway getRestApis` response items. -/
structure RestApiItem where
  id : String
  name : String
deriving Repr

/-- One entry of the `APIGateway getResources` response items. -/
structure ResourceItem where
  id : String
  path : String
deriving Repr

structure HttpSpec where
  path : Option String
deriving Repr

structure Event where
  http : Option HttpSpec
deriving Repr

/-- A lambda function definition: the code reads `func.events` and
reads/writes `func.layers`. -/
structure FunctionDesc where
  events : Option (List Event)
  layers : Option (List JsStr)
deriving Repr

/-- `provider.apiGateway`: the three fields the plugin commits. -/
structure ApiGatewaySection where
  restApiId : Option String
  restApiRootResourceId : Option String
  restApiResources : Option (List (String × String))
deriving Repr

structure ProviderSection where
  layers : Option (List JsStr)
  apiGateway : ApiGatewaySection
deriving Repr

/-- The deployment model (`this.serverless.service`): the parts the plugin
reads or mutates. `functions` keeps `Object.entries` order. -/
structure Service where
  provider : ProviderSection
  functions : Option (List (String × FunctionDesc))
deriving Repr

/-- The plugin configuration after the constructor's defaulting
(source lines 32-37). -/
structure Config where
  name : String
  path : String
  resources : Option (List String)
  resolveLayerArns : Bool
deriving Repr

/-- The oracle for the three provider requests the plugin performs.
`.error msg` models a thrown transport error. A response object's optional
field (`response.items`, `response.Layers`) is an `Option`. -/
structure ProviderResponses where
  layersResp : Except String (Option (List LayerItem))
  restApisResp : Except String (Option (List RestApiItem))
  resourcesResp : Except String (Option (List ResourceItem))
deriving Repr

/-! ## Layer ARN resolution (source lines 132-173) -/

/-- Message of the `TypeError` thrown by `for (let layer of layers)` when
`layers` is `undefined` (source line 142 via line 157). -/
def notIterableMsg : String := "layers is not iterable"

/-- Message of the `TypeError` thrown by `string.match(...)` inside `isArn`
when the value is `undefined`. -/
def matchOfUndefinedMsg : String := "Cannot read properties of undefined (reading match)"

/-- JS `Array.prototype.toString` on an array of possibly-`undefined`
strings: elements joined by commas, `undefined` printed as empty. -/
def jsArrToString (l : List JsStr) : String :=
  String.intercalate "," (l.map (fun x => x.getD ""))

/-- `existingLayers`: fold of
`existingLayers[layer.LayerName] = layer.LatestMatchingVersion.LayerVersionArn`
over `get(response, 'Layers', [])` (source lines 135-138). -/
def buildLayerIndex (items : List LayerItem) : List (String × String) :=
  items.foldl (fun acc it => objInsert acc it.LayerName it.LatestMatchingVersion.LayerVersionArn) []

/-- The loop body of `_resolveLayerArns` (source lines 155-168).
State: the input list still to process, the inventory, the accumulated
`resolvedLayers`, and the `resolvedAny` flag. An `undefined` entry makes
`isArn` throw (`undefined.match`). An ARN entry is pushed unchanged; a bare
name is pushed as `existingLayers[layer]` — JS property access on an object
is total, returning `undefined` for a missing key, so the `try` body never
throws and the `catch` arm (source lines 164-166) is unreachable and has no
counterpart here. -/
def resolveLoop : List JsStr → List (String × String) → List JsStr → Bool →
    Except String (List JsStr × Bool)
  | [], _, acc, ra => .ok (acc, ra)
  | none :: _, _, _, _ => .error matchOfUndefinedMsg
  | some s :: rest, inv, acc, ra =>
    if isArn s then resolveLoop rest inv (acc ++ [some s]) ra
    else resolveLoop rest inv (acc ++ [objGet inv s]) true

/-- `_resolveLayerArns(layers, existingLayers)` (source lines 154-173):
returns the new layer list together with the `cli.log` lines it emits
(the single `Resolved layer ARNs: ...` line when `resolvedAny`). -/
def _resolveLayerArns (layers : List JsStr) (existingLayers : List (String × String)) :
    Except String (List JsStr × List String) :=
  match resolveLoop layers existingLayers [] false with
  | .error e => .error e
  | .ok (rl, ra) => .ok (rl, if ra then ["Resolved layer ARNs: " ++ jsArrToString rl] else [])

/-- The per-function loop of `resolveLayerArns` (source lines 144-151):
rewrites `func.layers` for each function that has one. On a thrown error the
functions already processed keep their new lists and the rest are untouched,
matching JS in-place mutation order. Returns the updated function list, the
accumulated `cli.log` lines, and the error, if one was thrown. -/
def resolveFnLayers : List (String × FunctionDesc) → List (String × String) →
    List (String × FunctionDesc) × List String × Option String
  | [], _ => ([], [], none)
  | (n, f) :: rest, inv =>
    match f.layers with
    | none =>
      let (r, lg, e) := resolveFnLayers rest inv
      ((n, f) :: r, lg, e)
    | some ls =>
      match _resolveLayerArns ls inv with
      | .error e => ((n, f) :: rest, [], some e)
      | .ok (rl, lg1) =>
        let (r, lg2, e) := resolveFnLayers rest inv
        ((n, { f with layers := some rl }) :: r, lg1 ++ lg2, e)

/-- `resolveLayerArns()` (source lines 133-152). Returns the (possibly
partially) updated service, the `cli.log` lines emitted, and the thrown
error if any: a transport error from `listLayers`, the `TypeError` from
iterating an `undefined` `provider.layers`, or a `TypeError` from an
`undefined` entry inside a layer list. -/
def resolveLayerArns (svc : Service) (layersResp : Except String (Option (List LayerItem))) :
    Service × List String × Option String :=
  match layersResp with
  | .error e => (svc, [], some e)
  | .ok respLayers =>
    let existingLayers := buildLayerIndex (respLayers.getD [])
    match svc.provider.layers with
    | none => (svc, [], some notIterableMsg)
    | some pls =>
      match _resolveLayerArns pls existingLayers with
      | .error e => (svc, [], some e)
      | .ok (rl, lg1) =>
        let svc1 : Service := { svc with provider := { svc.provider with layers := some rl } }
        match svc1.functions with
        | none => (svc1, lg1, none)
        | some fns =>
          let (fns2, lg2, e) := resolveFnLayers fns existingLayers
          ({ svc1 with functions := some fns2 }, lg1 ++ lg2, e)

/-! ## Gateway locator and path inventory (source lines 40-62) -/

/-- `getRestApiPathIds` (source lines 40-51), applied to the `getResources`
response items: builds the path→id object. -/
def getRestApiPathIds (items : Option (List ResourceItem)) : List (String × String) :=
  match items with
  | none => []
  | some its => its.foldl (fun acc r => objInsert acc r.path r.id) []

/-- `findRestApiIdByName` (source lines 53-62), applied to the `getRestApis`
response items: id of the first exact name match, `undefined` otherwise. -/
def findRestApiIdByName (items : Option (List RestApiItem)) (name : String) : Option String :=
  match items with
  | none => none
  | some its =>
    match its.find? (fun r => r.name = name) with
    | none => none
    | some r => some r.id

/-! ## Resource inference (source lines 83-110) -/

/-- Inner loop over `Object.entries(pathIds)` for one HTTP event
(source lines 93-97): every existing path that is a string prefix of the
event path, in index order, duplicates kept. -/
def eventCandidates (ev : Event) (pathIds : List (String × String)) : List String :=
  match ev.http with
  | none => []
  | some h =>
    match h.path with
    | none => []
    | some p => (pathIds.filter (fun kv => jsStartsWith p kv.1)).map (fun kv => kv.1)

/-- Loop over one function's events (source lines 89-100). -/
def funcCandidates (f : FunctionDesc) (pathIds : List (String × String)) : List String :=
  match f.events with
  | none => []
  | some evs => evs.flatMap (fun ev => eventCandidates ev pathIds)

/-- `newResourcePaths` accumulated over all functions (source lines 88-101). -/
def inferCandidates (fns : List (String × FunctionDesc)) (pathIds : List (String × String)) :
    List String :=
  fns.flatMap (fun nf => funcCandidates nf.2 pathIds)

/-! ## Resource selection (source lines 112-121) -/

/-- The `resourcesToImport` loop: look every configured path up in
`pathIds`; a falsy id (missing key, or an empty-string id) aborts with the
offending path; otherwise accumulate `resourcesToImport[path] = id`. -/
def selectLoop : List String → List (String × String) → List (String × String) →
    Except String (List (String × String))
  | [], _, acc => .ok acc
  | p :: rest, pathIds, acc =>
    let rid := objGet pathIds p
    if jsFalsyOpt rid then .error p
    else selectLoop rest pathIds (objInsert acc p (rid.getD ""))

/-! ## Log messages -/

def unableFindApiMsg (name : String) : String :=
  "Unable to find REST API named " ++ sq ++ name ++ sq

def unableFindRootMsg (path restApiId : String) : String :=
  "Unable to find root resource path (" ++ path ++ ") for REST API (" ++ restApiId ++ ")"

def unableFindResourceMsg (p restApiId : String) : String :=
  "Unable to find resource path (" ++ p ++ ") for REST API (" ++ restApiId ++ ")"

/-- JSON string literal (values here never need escaping). -/
def jsonStr (s : String) : String := "\"" ++ s ++ "\""

/-- `JSON.stringify` of a string→string object. -/
def jsonObj (l : List (String × String)) : String :=
  "\x7b" ++ String.intercalate "," (l.map (fun kv => jsonStr kv.1 ++ ":" ++ jsonStr kv.2)) ++ "\x7d"

/-- `JSON.stringify` of the `apiGateway` section: fields in insertion
order, `undefined` fields omitted. -/
def jsonApiGateway (ag : ApiGatewaySection) : String :=
  let f1 := match ag.restApiId with
    | none => []
    | some v => [jsonStr "restApiId" ++ ":" ++ jsonStr v]
  let f2 := match ag.restApiRootResourceId with
    | none => []
    | some v => [jsonStr "restApiRootResourceId" ++ ":" ++ jsonStr v]
  let f3 := match ag.restApiResources with
    | none => []
    | some m => [jsonStr "restApiResources" ++ ":" ++ jsonObj m]
  "\x7b" ++ String.intercalate "," (f1 ++ f2 ++ f3) ++ "\x7d"

def importedMsg (ag : ApiGatewaySection) : String :=
  "Imported API Gateway (" ++ jsonApiGateway ag ++ ")"

/-- The `console.error` banner of the top-level `catch` (source line 128);
the `chalk.red` colouring is elided. -/
def errorBanner (e : String) : String :=
  "\n-------- Import API Gateway Error --------\n" ++ e

/-! ## The orchestrator `importApiGateway` (source lines 64-130) -/

/-- Result of the `try` block: the (possibly partially mutated) service,
the final `this.config.resources` (the code mutates it during inference),
the `cli.log` lines, and the thrown error, if one escaped to the top-level
`catch`. -/
structure BodyResult where
  service : Service
  resources : Option (List String)
  cliLog : List String
  thrown : Option String
deriving Repr

/-- Result of `importApiGateway`: as `BodyResult`, with the thrown error
converted by the `catch` into a `console.error` line. -/
structure RunResult where
  service : Service
  resources : Option (List String)
  cliLog : List String
  consoleErrors : List String
deriving Repr

/-- The body of the `try` block of `importApiGateway` (source lines 65-126),
translated statement by statement. -/
def importApiGatewayBody (name path : String) (resources0 : Option (List String))
    (svc : Service) (pr : ProviderResponses) : BodyResult :=
  match resolveLayerArns svc pr.layersResp with
  | (svc1, lg1, some e) => ⟨svc1, resources0, lg1, some e⟩
  | (svc1, lg1, none) =>
    match pr.restApisResp with
    | .error e => ⟨svc1, resources0, lg1, some e⟩
    | .ok items =>
      let restApiId := findRestApiIdByName items name
      if jsFalsyOpt restApiId then
        ⟨svc1, resources0, lg1 ++ [unableFindApiMsg name], none⟩
      else
        let rid := restApiId.getD ""
        match pr.resourcesResp with
        | .error e => ⟨svc1, resources0, lg1, some e⟩
        | .ok ritems =>
          let pathIds := getRestApiPathIds ritems
          let rootResourceId := objGet pathIds path
          if jsFalsyOpt rootResourceId then
            ⟨svc1, resources0, lg1 ++ [unableFindRootMsg path rid], none⟩
          else
            let resources1 : List String :=
              match resources0 with
              | some rs => rs
              | none =>
                match svc1.functions with
                | none => objKeys pathIds
                | some fns =>
                  let cands := inferCandidates fns pathIds
                  if cands.length = 0 then objKeys pathIds else cands
            match selectLoop resources1 pathIds [] with
            | .error badPath =>
              ⟨svc1, some resources1, lg1 ++ [unableFindResourceMsg badPath rid], none⟩
            | .ok resourcesToImport =>
              let ag : ApiGatewaySection :=
                ⟨some rid, some (rootResourceId.getD ""), some resourcesToImport⟩
              let svc2 : Service := { svc1 with provider := { svc1.provider with apiGateway := ag } }
              ⟨svc2, some resources1, lg1 ++ [importedMsg ag], none⟩

/-- `importApiGateway` (source lines 64-130): the `try` body wrapped in the
top-level `catch`, which logs the error message to `console.error` and
returns normally. The code reads `this.config.name`, `this.config.path`
and `this.config.resources`; it never reads `this.config.resolveLayerArns`. -/
def importApiGateway (cfg : Config) (svc : Service) (pr : ProviderResponses) : RunResult :=
  let b := importApiGatewayBody cfg.name cfg.path cfg.resources svc pr
  { service := b.service, resources := b.resources, cliLog := b.cliLog,
    consoleErrors := match b.thrown with | none => [] | some e => [errorBanner e] }

/-! ## Characterization helpers used by the theorem statements -/

/-- Is a layer-list entry a defined string classified as an ARN by `isArn`? -/
def isArnEntry : JsStr → Bool
  | none => false
  | some s => isArn s

/-- The per-entry behaviour of `_resolveLayerArns` on a defined entry: an
ARN is kept, a bare name becomes the inventory lookup (possibly
`undefined`). Used to characterize the loop; `none` is mapped to `none`
(that case throws in the loop and is excluded by hypothesis wherever this
function describes it). -/
def resolveEntry (inv : List (String × String)) : JsStr → JsStr
  | none => none
  | some s => if isArn s then some s else objGet inv s

/-! # Helper lemmas -/

theorem jsFalsyOpt_eq_false_iff (o : JsStr) :
    jsFalsyOpt o = false ↔ ∃ v, o = some v ∧ ¬v = "" := by
  cases o <;> simp [jsFalsyOpt]

theorem objGet_objInsert (m : List (String × String)) (k v : String) :
    ∀ q, objGet (objInsert m k v) q = if q = k then some v else objGet m q := by
  induction m with
  | nil =>
    intro q
    by_cases h : q = k
    · subst h; simp [objInsert, objGet]
    · have hk : ¬k = q := fun h2 => h h2.symm
      simp [objInsert, objGet, h, hk]
  | cons kv t ih =>
    intro q
    by_cases hk : kv.1 = k
    · by_cases hq : q = k
      · subst hq; simp [objInsert, objGet, hk]
      · have hkq : ¬k = q := fun h2 => hq h2.symm
        simp [objInsert, objGet, hk, hq, hkq]
    · by_cases hq : q = k
      · subst hq
        simp [objInsert, objGet, hk, ih]
      · simp [objInsert, objGet, hk, ih, hq]

theorem selectLoop_ok (P : List (String × String)) :
    ∀ (rs : List String) (acc : List (String × String)),
      (∀ p ∈ rs, jsFalsyOpt (objGet P p) = false) →
      ∃ m, selectLoop rs P acc = .ok m ∧
        ∀ q, objGet m q = if q ∈ rs then objGet P q else objGet acc q := by
  intro rs
  induction rs with
  | nil =>
    intro acc _
    exact ⟨acc, rfl, fun q => by simp⟩
  | cons p rest ih =>
    intro acc h
    obtain ⟨v, hv, hv0⟩ := (jsFalsyOpt_eq_false_iff _).1 (h p (List.mem_cons_self p rest))
    obtain ⟨m, hm, hmq⟩ := ih (objInsert acc p v) (fun q hq => h q (List.mem_cons_of_mem p hq))
    refine ⟨m, ?_, ?_⟩
    · simp only [selectLoop, hv]
      rw [if_neg]
      · simpa using hm
      · simp [jsFalsyOpt, hv0]
    · intro q
      rw [hmq q]
      by_cases hqr : q ∈ rest
      · simp [hqr, List.mem_cons]
      · by_cases hqp : q = p
        · subst hqp
          simp [hqr, objGet_objInsert, hv]
        · simp [hqr, hqp, objGet_objInsert, List.mem_cons]

theorem selectLoop_err (P : List (String × String)) :
    ∀ (rs : List String) (acc : List (String × String)),
      (∃ p ∈ rs, jsFalsyOpt (objGet P p) = true) →
      ∃ p, p ∈ rs ∧ jsFalsyOpt (objGet P p) = true ∧ selectLoop rs P acc = .error p := by
  intro rs
  induction rs with
  | nil =>
    intro acc h
    obtain ⟨p, hp, _⟩ := h
    exact absurd hp (List.not_mem_nil p)
  | cons p rest ih =>
    intro acc h
    by_cases hp : jsFalsyOpt (objGet P p) = true
    · exact ⟨p, List.mem_cons_self p rest, hp, by simp [selectLoop, hp]⟩
    · obtain ⟨p', hp', hfp'⟩ := h
      have hpr : p' ∈ rest := by
        rcases List.mem_cons.1 hp' with h1 | h1
        · exact absurd (h1 ▸ hfp') hp
        · exact h1
      obtain ⟨v, hv, hv0⟩ := (jsFalsyOpt_eq_false_iff _).1 (Bool.eq_false_iff.2 hp)
      obtain ⟨p2, hmem, hfp2, herr⟩ := ih (objInsert acc p ((objGet P p).getD "")) ⟨p', hpr, hfp'⟩
      refine ⟨p2, List.mem_cons_of_mem p hmem, hfp2, ?_⟩
      simp only [selectLoop]
      rw [if_neg (by simp [Bool.eq_false_iff.2 hp])]
      exact herr

theorem resolveLoop_arns (inv : List (String × String)) :
    ∀ (ls : List JsStr) (acc : List JsStr) (ra : Bool),
      (∀ x ∈ ls, isArnEntry x = true) →
      resolveLoop ls inv acc ra = .ok (acc ++ ls, ra) := by
  intro ls
  induction ls with
  | nil => intro acc ra _; simp [resolveLoop]
  | cons x rest ih =>
    intro acc ra h
    have hx := h x (List.mem_cons_self x rest)
    match x, hx with
    | some s, hx =>
      have hs : isArn s = true := hx
      simp only [resolveLoop, hs, if_pos]
      rw [ih (acc ++ [some s]) ra (fun y hy => h y (List.mem_cons_of_mem _ hy))]
      simp

theorem resolveLoop_some (inv : List (String × String)) :
    ∀ (ls : List JsStr) (acc : List JsStr) (ra : Bool),
      (∀ x ∈ ls, x.isSome = true) →
      ∃ ra2, resolveLoop ls inv acc ra = .ok (acc ++ ls.map (resolveEntry inv), ra2) := by
  intro ls
  induction ls with
  | nil => intro acc ra _; exact ⟨ra, by simp [resolveLoop]⟩
  | cons x rest ih =>
    intro acc ra h
    have hx := h x (List.mem_cons_self x rest)
    match x, hx with
    | some s, _ =>
      by_cases hs : isArn s = true
      · obtain ⟨ra2, hra⟩ := ih (acc ++ [some s]) ra (fun y hy => h y (List.mem_cons_of_mem _ hy))
        refine ⟨ra2, ?_⟩
        simp only [resolveLoop, hs, if_pos]
        rw [hra]
        simp [resolveEntry, hs]
      · obtain ⟨ra2, hra⟩ := ih (acc ++ [objGet inv s]) true (fun y hy => h y (List.mem_cons_of_mem _ hy))
        refine ⟨ra2, ?_⟩
        simp only [resolveLoop, hs, if_neg]
        rw [hra]
        simp [resolveEntry, hs]

theorem resolveLayerArns_apiGateway (svc : Service)
    (lr : Except String (Option (List LayerItem))) :
    (resolveLayerArns svc lr).1.provider.apiGateway = svc.provider.apiGateway := by
  obtain ⟨⟨pl, ag⟩, fns⟩ := svc
  cases lr with
  | error e => rfl
  | ok respLayers =>
    cases pl with
    | none => rfl
    | some pls =>
      simp only [resolveLayerArns]
      cases _resolveLayerArns pls (buildLayerIndex (respLayers.getD [])) with
      | error e => rfl
      | ok p =>
        obtain ⟨rl, lg1⟩ := p
        cases fns with
        | none => rfl
        | some fl =>
          rcases hfe : resolveFnLayers fl (buildLayerIndex (respLayers.getD [])) with ⟨fns2, lg2, e⟩
          simp [resolveLayerArns, hfe]

/-! # Claim theorems -/

/-- **C1** (amended). For every path index `P` and explicitly set resource
list `rs`: resource selection returns exactly the paths of `rs`, each paired
with `P[path]`, iff every path in `rs` is a key of `P` *with a truthy
(non-empty) id*; otherwise the run fails naming an offending path. The
amendment (forced by `c1_counterexample`) is that the code tests JS
falsiness of the looked-up id, so a key bound to the empty string also
counts as missing. -/
theorem c1_selectResources_amended (rs : List String) (P : List (String × String)) :
    ((∀ p ∈ rs, jsFalsyOpt (objGet P p) = false) →
      ∃ m, selectLoop rs P [] = .ok m ∧
        ∀ q, objGet m q = if q ∈ rs then objGet P q else none) ∧
    ((∃ p ∈ rs, jsFalsyOpt (objGet P p) = true) →
      ∃ p, p ∈ rs ∧ jsFalsyOpt (objGet P p) = true ∧ selectLoop rs P [] = .error p) := by
  constructor
  · intro h
    obtain ⟨m, hm, hq⟩ := selectLoop_ok P rs [] h
    exact ⟨m, hm, fun q => by simpa [objGet] using hq q⟩
  · intro h
    exact selectLoop_err P rs [] h

/-- **C1** counterexample to the claim as stated: in the path index
`[("/x", "")]` the path `/x` *is* a key, yet selection aborts with `/x` as
a missing path instead of returning the pair, because the id `""` is
JS-falsy. -/
theorem c1_counterexample :
    (objGet [("/x", "")] "/x").isSome = true ∧
    selectLoop ["/x"] [("/x", "")] [] = .error "/x" :=
  ⟨rfl, rfl⟩

theorem c1_witness :
    (∀ p ∈ ["/users"], jsFalsyOpt (objGet [("/", "abc123"), ("/users", "u1")] p) = false) ∧
    (∃ m, selectLoop ["/users"] [("/", "abc123"), ("/users", "u1")] [] = .ok m ∧
      ∀ q, objGet m q =
        if q ∈ ["/users"] then objGet [("/", "abc123"), ("/users", "u1")] q else none) :=
  ⟨by decide,
   (c1_selectResources_amended ["/users"] [("/", "abc123"), ("/users", "u1")]).1 (by decide)⟩

/-- **C4** (code bug). Evaluating `_resolveLayerArns` on the bare name
`"missing-layer"` with an empty inventory: the entry is *not* omitted — it
is kept at its position as `undefined` (`none`) — and the only log line is
`Resolved layer ARNs: ` (the array prints `undefined` as empty); no
`Unable to find layer ...` diagnostic is ever produced, because indexing a
JS object with a missing key returns `undefined` rather than throwing, so
the `catch` arm containing that log (source lines 164-166) is dead code.
The spec's claim describes the intended behaviour that the dead `catch`
was meant to implement. -/
theorem c4_missing_layer_eval :
    _resolveLayerArns [some "missing-layer"] [] =
      .ok ([none], ["Resolved layer ARNs: "]) := rfl

/-- **C7** (confirmed). Any layer list whose entries all match the ARN
pattern is returned unchanged with no log, for *every* inventory (so the
inventory is never consulted); stating it for two arbitrary inventories
also gives idempotence: a second run on the output (= the input) leaves it
unchanged again. -/
theorem c7_arn_idempotent (ls : List JsStr) (inv inv2 : List (String × String))
    (h : ∀ x ∈ ls, isArnEntry x = true) :
    _resolveLayerArns ls inv = .ok (ls, []) ∧
    _resolveLayerArns ls inv2 = .ok (ls, []) := by
  constructor <;>
    simp [_resolveLayerArns, resolveLoop_arns _ ls [] false h]

theorem c7_witness :
    (∀ x ∈ [some "arn:aws:lambda:us-east-1:000000000000:layer:common:1"],
      isArnEntry x = true) ∧
    (_resolveLayerArns [some "arn:aws:lambda:us-east-1:000000000000:layer:common:1"]
        [("common", "other")] =
      .ok ([some "arn:aws:lambda:us-east-1:000000000000:layer:common:1"], []) ∧
     _resolveLayerArns [some "arn:aws:lambda:us-east-1:000000000000:layer:common:1"] [] =
      .ok ([some "arn:aws:lambda:us-east-1:000000000000:layer:common:1"], [])) :=
  ⟨by decide, c7_arn_idempotent _ [("common", "other")] [] (by decide)⟩

/-- **C9** (confirmed). For every layer list of defined entries and every
inventory, `_resolveLayerArns` returns a list of exactly the input's
length, whose entry at each position is the input entry when it is an ARN
and the (possibly `undefined`) inventory lookup otherwise — a bare name
absent from the inventory yields `undefined` at its position rather than
being removed — and every emitted log line is a `Resolved layer ARNs: `
line, so the `Unable to find layer` log of the `catch` arm is never
produced. -/
theorem c9_resolve_length (ls : List JsStr) (inv : List (String × String))
    (h : ∀ x ∈ ls, x.isSome = true) :
    ∃ logs, _resolveLayerArns ls inv = .ok (ls.map (resolveEntry inv), logs) ∧
      (ls.map (resolveEntry inv)).length = ls.length ∧
      ∀ line ∈ logs, ∃ t, line = "Resolved layer ARNs: " ++ t := by
  obtain ⟨ra2, hra⟩ := resolveLoop_some inv ls [] false h
  refine ⟨if ra2 then ["Resolved layer ARNs: " ++ jsArrToString (ls.map (resolveEntry inv))]
          else [], ?_, ?_, ?_⟩
  · simp [_resolveLayerArns, hra]
  · simp
  · intro line hline
    cases ra2 with
    | false => simp at hline
    | true =>
      simp at hline
      exact ⟨jsArrToString (ls.map (resolveEntry inv)), hline⟩

theorem c9_witness :
    (∀ x ∈ [some "missing"], Option.isSome x = true) ∧
    (∃ logs, _resolveLayerArns [some "missing"] [] =
        .ok ([some "missing"].map (resolveEntry []), logs) ∧
      ([some "missing"].map (resolveEntry [])).length = [some "missing"].length ∧
      ∀ line ∈ logs, ∃ t, line = "Resolved layer ARNs: " ++ t) ∧
    [some "missing"].map (resolveEntry []) = [none] :=
  ⟨by decide, c9_resolve_length [some "missing"] [] (by decide), by decide⟩

/-- **C10** (confirmed). When the deployment model has no provider-level
layer list, the (unconditionally invoked) layer-resolution step throws a
`TypeError` iterating `undefined`; the top-level `catch` logs it and the
run ends with the service — in particular `provider.apiGateway` — entirely
unchanged, no matter how valid the gateway name, root path and configured
resources are. -/
theorem c10_undefined_provider_layers (cfg : Config) (svc : Service) (pr : ProviderResponses)
    (r : Option (List LayerItem))
    (hlayers : svc.provider.layers = none) (hresp : pr.layersResp = .ok r) :
    importApiGateway cfg svc pr =
      ⟨svc, cfg.resources, [], [errorBanner notIterableMsg]⟩ := by
  have hstep : resolveLayerArns svc pr.layersResp = (svc, [], some notIterableMsg) := by
    rw [hresp]
    simp [resolveLayerArns, hlayers]
  simp [importApiGateway, importApiGatewayBody, hstep]

theorem c10_witness :
    ((⟨⟨none, ⟨none, none, none⟩⟩, none⟩ : Service).provider.layers = none) ∧
    ((⟨.ok none,
       .ok (some [⟨"gw1", "my-api"⟩]),
       .ok (some [⟨"abc123", "/"⟩, ⟨"u1", "/users"⟩])⟩ : ProviderResponses).layersResp =
      .ok none) ∧
    importApiGateway ⟨"my-api", "/", some ["/users"], false⟩
        ⟨⟨none, ⟨none, none, none⟩⟩, none⟩
        ⟨.ok none,
         .ok (some [⟨"gw1", "my-api"⟩]),
         .ok (some [⟨"abc123", "/"⟩, ⟨"u1", "/users"⟩])⟩ =
      ⟨⟨⟨none, ⟨none, none, none⟩⟩, none⟩, some ["/users"], [],
       [errorBanner notIterableMsg]⟩ :=
  ⟨rfl, rfl,
   c10_undefined_provider_layers ⟨"my-api", "/", some ["/users"], false⟩
     ⟨⟨none, ⟨none, none, none⟩⟩, none⟩
     ⟨.ok none,
      .ok (some [⟨"gw1", "my-api"⟩]),
      .ok (some [⟨"abc123", "/"⟩, ⟨"u1", "/users"⟩])⟩
     none rfl rfl⟩

/-- **C8** (confirmed). Whatever error the `try` body of
`importApiGateway` raises — a transport error from any of the three
provider requests, or an internal `TypeError` — the top-level `catch`
turns it into a single `console.error` line carrying the error message and
the run returns normally; `importApiGateway` is a total function into
`RunResult`, a type with no crash alternative, so no error reaches the
caller. -/
theorem c8_errors_caught (cfg : Config) (svc : Service) (pr : ProviderResponses) (e : String)
    (h : (importApiGatewayBody cfg.name cfg.path cfg.resources svc pr).thrown = some e) :
    importApiGateway cfg svc pr =
      ⟨(importApiGatewayBody cfg.name cfg.path cfg.resources svc pr).service,
       (importApiGatewayBody cfg.name cfg.path cfg.resources svc pr).resources,
       (importApiGatewayBody cfg.name cfg.path cfg.resources svc pr).cliLog,
       [errorBanner e]⟩ := by
  simp [importApiGateway, h]

theorem c8_witness :
    ((importApiGatewayBody "my-api" "/" none
        ⟨⟨some [], ⟨none, none, none⟩⟩, none⟩
        ⟨.error "connect ETIMEDOUT", .ok none, .ok none⟩).thrown =
      some "connect ETIMEDOUT") ∧
    importApiGateway ⟨"my-api", "/", none, false⟩
        ⟨⟨some [], ⟨none, none, none⟩⟩, none⟩
        ⟨.error "connect ETIMEDOUT", .ok none, .ok none⟩ =
      ⟨⟨⟨some [], ⟨none, none, none⟩⟩, none⟩, none, [],
       [errorBanner "connect ETIMEDOUT"]⟩ :=
  ⟨rfl,
   c8_errors_caught ⟨"my-api", "/", none, false⟩
     ⟨⟨some [], ⟨none, none, none⟩⟩, none⟩
     ⟨.error "connect ETIMEDOUT", .ok none, .ok none⟩
     "connect ETIMEDOUT" rfl⟩

/-- **C3** (code bug). `importApiGateway` never reads
`config.resolveLayerArns` (it reads only `name`, `path`, `resources`), so
its result is identical whether the flag is `false` or `true` — and with
the flag `false`, a run on a model whose provider-level layer list holds
the bare name `common` still rewrites that list to the looked-up ARN
instead of skipping straight to gateway location: layer resolution runs
unconditionally. The constructor (source lines 32-37) reads and defaults
the flag but no other code consults it. -/
theorem c3_flag_ignored :
    (∀ (n p : String) (r : Option (List String)) (svc : Service) (pr : ProviderResponses),
      importApiGateway ⟨n, p, r, false⟩ svc pr = importApiGateway ⟨n, p, r, true⟩ svc pr) ∧
    (importApiGateway ⟨"my-api", "/", some [], false⟩
        ⟨⟨some [some "common"], ⟨none, none, none⟩⟩, none⟩
        ⟨.ok (some [⟨"common", ⟨"arn:aws:lambda:us-east-1:000000000000:layer:common:7"⟩⟩]),
         .ok (some [⟨"gw1", "my-api"⟩]),
         .ok (some [⟨"abc123", "/"⟩])⟩).service.provider.layers =
      some [some "arn:aws:lambda:us-east-1:000000000000:layer:common:7"] :=
  ⟨fun _ _ _ _ _ => rfl, rfl⟩

/-- **C2** (confirmed). In a run whose config has `resources` unset and
which reaches the inference step (layer resolution returned normally, the
gateway name resolved to a truthy id, the root path resolved to a truthy
id), the final `config.resources` is: the accumulated, non-deduplicated
candidate list `inferCandidates` — every existing gateway path of the
index that is a string prefix of some function's HTTP event path, in
function/event/index order, duplicates kept — whenever that list is
non-empty; and all keys of the path index when the model has no functions
or no candidate was found. -/
theorem c2_inferResources (cfg : Config) (svc svc1 : Service) (pr : ProviderResponses)
    (lg1 : List String) (items : Option (List RestApiItem)) (rits : Option (List ResourceItem))
    (hres : cfg.resources = none)
    (hL : resolveLayerArns svc pr.layersResp = (svc1, lg1, none))
    (hA : pr.restApisResp = .ok items)
    (hG : jsFalsyOpt (findRestApiIdByName items cfg.name) = false)
    (hR : pr.resourcesResp = .ok rits)
    (hRoot : jsFalsyOpt (objGet (getRestApiPathIds rits) cfg.path) = false) :
    (importApiGateway cfg svc pr).resources =
      some (match svc1.functions with
        | none => objKeys (getRestApiPathIds rits)
        | some fns =>
          if (inferCandidates fns (getRestApiPathIds rits)).length = 0
          then objKeys (getRestApiPathIds rits)
          else inferCandidates fns (getRestApiPathIds rits)) := by
  simp only [importApiGateway, importApiGatewayBody, hres, hL, hA, hR, hG, hRoot,
    Bool.false_eq_true, if_false]
  rcases hf : svc1.functions with _ | fns
  · rcases hsel : selectLoop (objKeys (getRestApiPathIds rits)) (getRestApiPathIds rits) [] with
      e | m <;> simp [hsel]
  · by_cases hc : (inferCandidates fns (getRestApiPathIds rits)).length = 0
    · simp only [hc, if_true]
      rcases hsel : selectLoop (objKeys (getRestApiPathIds rits)) (getRestApiPathIds rits) [] with
        e | m <;> simp [hsel, hc]
    · simp only [hc, if_false]
      rcases hsel : selectLoop (inferCandidates fns (getRestApiPathIds rits))
          (getRestApiPathIds rits) [] with e | m <;> simp [hsel, hc]

theorem c2_witness :
    ((⟨"my-api", "/", none, false⟩ : Config).resources = none) ∧
    (resolveLayerArns
        ⟨⟨some [], ⟨none, none, none⟩⟩,
         some [("f1", ⟨some [⟨some ⟨some "/users/42"⟩⟩, ⟨some ⟨some "/users/42"⟩⟩], none⟩)]⟩
        (.ok none) =
      (⟨⟨some [], ⟨none, none, none⟩⟩,
        some [("f1", ⟨some [⟨some ⟨some "/users/42"⟩⟩, ⟨some ⟨some "/users/42"⟩⟩], none⟩)]⟩,
       [], none)) ∧
    (importApiGateway ⟨"my-api", "/", none, false⟩
        ⟨⟨some [], ⟨none, none, none⟩⟩,
         some [("f1", ⟨some [⟨some ⟨some "/users/42"⟩⟩, ⟨some ⟨some "/users/42"⟩⟩], none⟩)]⟩
        ⟨.ok none,
         .ok (some [⟨"gw1", "my-api"⟩]),
         .ok (some [⟨"abc123", "/"⟩, ⟨"u1", "/users"⟩])⟩).resources =
      some ["/", "/users", "/", "/users"] :=
  ⟨rfl, rfl,
   (c2_inferResources ⟨"my-api", "/", none, false⟩
     ⟨⟨some [], ⟨none, none, none⟩⟩,
      some [("f1", ⟨some [⟨some ⟨some "/users/42"⟩⟩, ⟨some ⟨some "/users/42"⟩⟩], none⟩)]⟩
     ⟨⟨some [], ⟨none, none, none⟩⟩,
      some [("f1", ⟨some [⟨some ⟨some "/users/42"⟩⟩, ⟨some ⟨some "/users/42"⟩⟩], none⟩)]⟩
     ⟨.ok none,
      .ok (some [⟨"gw1", "my-api"⟩]),
      .ok (some [⟨"abc123", "/"⟩, ⟨"u1", "/users"⟩])⟩
     [] (some [⟨"gw1", "my-api"⟩]) (some [⟨"abc123", "/"⟩, ⟨"u1", "/users"⟩])
     rfl rfl rfl rfl rfl rfl).trans (by rfl)⟩

/-- **C5** (amended). When layer resolution returns normally and then the
gateway name yields no id (or the configured root path is absent from the
path index), the run stops with the corresponding diagnostic line
(`Unable to find REST API named '<name>'`, resp.
`Unable to find root resource path ...`) appended to the log, no error is
raised, and `provider.apiGateway` is unchanged. The amendment (forced by
`c5_counterexample`) is that the *whole* deployment model is not left
unmodified: the layer-resolution step, which runs first, may already have
rewritten `provider.layers` and the functions' layer lists; only the
gateway state is untouched. -/
theorem c5_abort_amended (cfg : Config) (svc svc1 : Service) (pr : ProviderResponses)
    (lg1 : List String)
    (hL : resolveLayerArns svc pr.layersResp = (svc1, lg1, none)) :
    (∀ items, pr.restApisResp = .ok items →
      findRestApiIdByName items cfg.name = none →
      importApiGateway cfg svc pr =
        ⟨svc1, cfg.resources, lg1 ++ [unableFindApiMsg cfg.name], []⟩ ∧
      svc1.provider.apiGateway = svc.provider.apiGateway) ∧
    (∀ items rits, pr.restApisResp = .ok items → pr.resourcesResp = .ok rits →
      jsFalsyOpt (findRestApiIdByName items cfg.name) = false →
      objGet (getRestApiPathIds rits) cfg.path = none →
      importApiGateway cfg svc pr =
        ⟨svc1, cfg.resources,
         lg1 ++ [unableFindRootMsg cfg.path ((findRestApiIdByName items cfg.name).getD "")],
         []⟩ ∧
      svc1.provider.apiGateway = svc.provider.apiGateway) := by
  have hag : svc1.provider.apiGateway = svc.provider.apiGateway := by
    have h2 := resolveLayerArns_apiGateway svc pr.layersResp
    rw [hL] at h2
    exact h2
  constructor
  · intro items hA hG
    refine ⟨?_, hag⟩
    have hGf : jsFalsyOpt (findRestApiIdByName items cfg.name) = true := by
      rw [hG]; rfl
    simp [importApiGateway, importApiGatewayBody, hL, hA, hGf]
  · intro items rits hA hR hG hRoot
    refine ⟨?_, hag⟩
    have hRf : jsFalsyOpt (objGet (getRestApiPathIds rits) cfg.path) = true := by
      rw [hRoot]; rfl
    simp [importApiGateway, importApiGatewayBody, hL, hA, hR, hG, hRf]

/-- **C5** counterexample to "the deployment model is left unmodified":
with `provider.layers = [common]` and a gateway list not containing
`my-api`, the run aborts with the expected diagnostic, but the model has
already been modified — `provider.layers` was rewritten to the resolved
ARN before the gateway lookup. -/
theorem c5_counterexample :
    ((importApiGateway ⟨"my-api", "/", some [], false⟩
        ⟨⟨some [some "common"], ⟨none, none, none⟩⟩, none⟩
        ⟨.ok (some [⟨"common", ⟨"arn:aws:lambda:us-east-1:000000000000:layer:common:7"⟩⟩]),
         .ok (some []), .ok none⟩).cliLog =
      ["Resolved layer ARNs: arn:aws:lambda:us-east-1:000000000000:layer:common:7",
       unableFindApiMsg "my-api"]) ∧
    ((importApiGateway ⟨"my-api", "/", some [], false⟩
        ⟨⟨some [some "common"], ⟨none, none, none⟩⟩, none⟩
        ⟨.ok (some [⟨"common", ⟨"arn:aws:lambda:us-east-1:000000000000:layer:common:7"⟩⟩]),
         .ok (some []), .ok none⟩).service.provider.layers =
      some [some "arn:aws:lambda:us-east-1:000000000000:layer:common:7"]) ∧
    (some [some "arn:aws:lambda:us-east-1:000000000000:layer:common:7"] ≠
      some [some "common"]) :=
  ⟨rfl, rfl, by decide⟩

theorem c5_witness :
    resolveLayerArns ⟨⟨some [], ⟨none, none, none⟩⟩, none⟩ (.ok (some [])) =
      (⟨⟨some [], ⟨none, none, none⟩⟩, none⟩, [], none) ∧
    ((⟨.ok (some []), .ok (some [⟨"gw1", "other-api"⟩]), .ok none⟩ :
        ProviderResponses).restApisResp = .ok (some [⟨"gw1", "other-api"⟩])) ∧
    findRestApiIdByName (some [⟨"gw1", "other-api"⟩]) "my-api" = none ∧
    (importApiGateway ⟨"my-api", "/", none, false⟩
        ⟨⟨some [], ⟨none, none, none⟩⟩, none⟩
        ⟨.ok (some []), .ok (some [⟨"gw1", "other-api"⟩]), .ok none⟩ =
      ⟨⟨⟨some [], ⟨none, none, none⟩⟩, none⟩, none,
       [] ++ [unableFindApiMsg "my-api"], []⟩ ∧
     (⟨⟨some [], ⟨none, none, none⟩⟩, none⟩ : Service).provider.apiGateway =
       (⟨⟨some [], ⟨none, none, none⟩⟩, none⟩ : Service).provider.apiGateway) :=
  ⟨rfl, rfl, rfl,
   (c5_abort_amended ⟨"my-api", "/", none, false⟩
     ⟨⟨some [], ⟨none, none, none⟩⟩, none⟩
     ⟨⟨some [], ⟨none, none, none⟩⟩, none⟩
     ⟨.ok (some []), .ok (some [⟨"gw1", "other-api"⟩]), .ok none⟩
     [] rfl).1 (some [⟨"gw1", "other-api"⟩]) rfl rfl⟩

/-- **C6** (confirmed). A run that reaches selection and succeeds commits
by writing exactly `restApiId` (the located gateway id),
`restApiRootResourceId` (the path-index entry for the configured root
path) and `restApiResources` (the selected path→id mapping) into
`provider.apiGateway`, logging the final resolved state; nothing else in
the service changes beyond what layer resolution already did. -/
theorem c6_commit (cfg : Config) (svc svc1 : Service) (pr : ProviderResponses)
    (lg1 : List String) (items : Option (List RestApiItem)) (rits : Option (List ResourceItem))
    (rs : List String) (m : List (String × String))
    (hL : resolveLayerArns svc pr.layersResp = (svc1, lg1, none))
    (hA : pr.restApisResp = .ok items)
    (hG : jsFalsyOpt (findRestApiIdByName items cfg.name) = false)
    (hR : pr.resourcesResp = .ok rits)
    (hRoot : jsFalsyOpt (objGet (getRestApiPathIds rits) cfg.path) = false)
    (hres : cfg.resources = some rs)
    (hsel : selectLoop rs (getRestApiPathIds rits) [] = .ok m) :
    importApiGateway cfg svc pr =
      ⟨{ svc1 with provider := { svc1.provider with apiGateway :=
            ⟨some ((findRestApiIdByName items cfg.name).getD ""),
             some ((objGet (getRestApiPathIds rits) cfg.path).getD ""), some m⟩ } },
       some rs,
       lg1 ++ [importedMsg
           ⟨some ((findRestApiIdByName items cfg.name).getD ""),
            some ((objGet (getRestApiPathIds rits) cfg.path).getD ""), some m⟩],
       []⟩ := by
  simp [importApiGateway, importApiGatewayBody, hL, hA, hG, hR, hRoot, hres, hsel]

theorem c6_witness :
    resolveLayerArns ⟨⟨some [], ⟨none, none, none⟩⟩, none⟩ (.ok none) =
      (⟨⟨some [], ⟨none, none, none⟩⟩, none⟩, [], none) ∧
    jsFalsyOpt (findRestApiIdByName (some [⟨"gw1", "my-api"⟩]) "my-api") = false ∧
    jsFalsyOpt (objGet (getRestApiPathIds (some [⟨"abc123", "/"⟩, ⟨"u1", "/users"⟩])) "/") =
      false ∧
    selectLoop ["/users"] (getRestApiPathIds (some [⟨"abc123", "/"⟩, ⟨"u1", "/users"⟩])) [] =
      .ok [("/users", "u1")] ∧
    importApiGateway ⟨"my-api", "/", some ["/users"], false⟩
        ⟨⟨some [], ⟨none, none, none⟩⟩, none⟩
        ⟨.ok none,
         .ok (some [⟨"gw1", "my-api"⟩]),
         .ok (some [⟨"abc123", "/"⟩, ⟨"u1", "/users"⟩])⟩ =
      ⟨⟨⟨some [], ⟨some "gw1", some "abc123", some [("/users", "u1")]⟩⟩, none⟩,
       some ["/users"],
       [importedMsg ⟨some "gw1", some "abc123", some [("/users", "u1")]⟩],
       []⟩ :=
  ⟨rfl, rfl, rfl, rfl,
   (c6_commit ⟨"my-api", "/", some ["/users"], false⟩
     ⟨⟨some [], ⟨none, none, none⟩⟩, none⟩
     ⟨⟨some [], ⟨none, none, none⟩⟩, none⟩
     ⟨.ok none,
      .ok (some [⟨"gw1", "my-api"⟩]),
      .ok (some [⟨"abc123", "/"⟩, ⟨"u1", "/users"⟩])⟩
     [] (some [⟨"gw1", "my-api"⟩]) (some [⟨"abc123", "/"⟩, ⟨"u1", "/users"⟩])
     ["/users"] [("/users", "u1")]
     rfl rfl rfl rfl rfl rfl rfl).trans (by rfl)⟩

end ImportApiGatewayPlugin
